import Mathlib

/-!
Verification of the keyscan-diagnostics engine.

The repository contains several near-duplicate implementations of the
diagnostic engine.  Each is embedded in its own namespace:

* `DiagA` — the listener/burst-counter variant
  (`keyscan_diag_listener`, `keyscan_diag_update_chatter`,
  `keyscan_diag_reset_counters`, `keyscan_diag_fill_snapshot`).
* `DiagC` — the `state`-struct variant with the circular event buffer,
  per-key statistics and the bounded chattering-alert list
  (`record_key_event`, `handle_get_events`, `handle_start_monitoring`,
  `handle_get_key_matrix`, `keyscan_diagnostics_position_listener`,
  `keyscan_diagnostics_handle_request`).
* `DiagD` — the library variant (`add_event`, `update_chatter_stats`,
  `keyscan_diagnostics_event_callback`, `keyscan_diagnostics_clear`,
  `keyscan_diagnostics_start`, the query accessors).

Machine integers are modelled as `Nat`/`Int` with explicit `% 2^32`
(resp. `% 256`) where the C types can wrap.  Fixed-size C arrays are
modelled as total functions from the index type; the live prefix of a
counted array is modelled as a `List`.
-/

namespace DiagA

/-- `struct keyscan_diag_stat` — per-key statistics (uint32 counters,
uint8 burst, int64 timestamps). -/
structure KeyscanDiagStat where
  press_count : Nat
  release_count : Nat
  chatter_count : Nat
  burst : Nat
  burst_start : Int
  last_change : Int
  pressed : Bool
  seen : Bool
  deriving DecidableEq

/-- The all-zero statistics record (`memset(..., 0, ...)`). -/
def statZero : KeyscanDiagStat :=
  { press_count := 0, release_count := 0, chatter_count := 0, burst := 0,
    burst_start := 0, last_change := 0, pressed := false, seen := false }

/-- `struct keyscan_line_ref` — drive/sense line pair for a position. -/
structure KeyscanLineRef where
  drive : Nat
  sense : Nat
  valid : Bool
  deriving DecidableEq

/-- The mutable diagnostic state of this engine variant:
`keyscan_stats`, `keyscan_line_map`, `keyscan_diag_line_activity`,
together with the compile-time sizes `KEYSCAN_DIAG_KEY_COUNT` and
`KEYSCAN_DIAG_LINE_COUNT`. -/
structure AState where
  keyCount : Nat
  lineCount : Nat
  keyscan_stats : Nat → KeyscanDiagStat
  keyscan_line_map : Nat → KeyscanLineRef
  keyscan_diag_line_activity : Nat → Nat

/-- `keyscan_diag_update_chatter`: burst-window chattering detector.
`windowMs` is `CHATTER_WINDOW_MS`, `burstThreshold` is `CHATTER_BURST`.
`burst` is a `uint8` (increments wrap at 256), `chatter_count` a
`uint32`. -/
def keyscan_diag_update_chatter (windowMs burstThreshold : Nat)
    (stat : KeyscanDiagStat) (timestamp : Int) : KeyscanDiagStat :=
  let stat :=
    if stat.burst_start = 0 ∨ timestamp - stat.burst_start > (windowMs : Int) then
      { stat with burst_start := timestamp, burst := 0 }
    else stat
  let stat := { stat with burst := (stat.burst + 1) % 256 }
  if stat.burst ≥ burstThreshold then
    { stat with chatter_count := (stat.chatter_count + 1) % 2 ^ 32,
                burst := 0, burst_start := timestamp }
  else stat

/-- `keyscan_diag_listener`: records one `position_state_changed` event.
Out-of-range positions are ignored (the C listener just bubbles the
event).  Updates the stat record, runs the chatter detector, and bumps
the activity counters of both mapped lines. -/
def keyscan_diag_listener (windowMs burstThreshold : Nat) (s : AState)
    (position : Nat) (pressed : Bool) (timestamp : Int) : AState :=
  if position ≥ s.keyCount then s
  else
    let stat0 := s.keyscan_stats position
    let stat1 :=
      { stat0 with
        seen := true, pressed := pressed, last_change := timestamp,
        press_count :=
          if pressed then (stat0.press_count + 1) % 2 ^ 32 else stat0.press_count,
        release_count :=
          if pressed then stat0.release_count else (stat0.release_count + 1) % 2 ^ 32 }
    let stat2 := keyscan_diag_update_chatter windowMs burstThreshold stat1 timestamp
    let s' := { s with keyscan_stats := Function.update s.keyscan_stats position stat2 }
    if (s'.keyscan_line_map position).valid then
      let ref := s'.keyscan_line_map position
      let act1 := Function.update s'.keyscan_diag_line_activity ref.drive
        ((s'.keyscan_diag_line_activity ref.drive + 1) % 2 ^ 32)
      let act2 := Function.update act1 ref.sense ((act1 ref.sense + 1) % 2 ^ 32)
      { s' with keyscan_diag_line_activity := act2 }
    else s'

/-- `keyscan_diag_reset_counters`: zeroes all per-key statistics and all
per-line activity counters. -/
def keyscan_diag_reset_counters (s : AState) : AState :=
  { s with keyscan_stats := fun _ => statZero,
           keyscan_diag_line_activity := fun _ => 0 }

/-- Helper used by the tests below: fold `keyscan_diag_update_chatter`
over a list of timestamps for a single key. -/
def chatter_run (windowMs burstThreshold : Nat) (stat : KeyscanDiagStat)
    (stamps : List Int) : KeyscanDiagStat :=
  stamps.foldl (fun st t => keyscan_diag_update_chatter windowMs burstThreshold st t) stat

/-- The per-line summary accumulated inside `keyscan_diag_fill_snapshot`
(the anonymous `line_summary` struct: `involved`, `chatter_keys`,
`missing`). -/
structure LineSummary where
  involved : Nat
  chatter_keys : Nat
  missing : Nat
  deriving DecidableEq

/-- One key's contribution to one line of the `line_summary` array:
`involved++`, `chatter_keys++` when the key chattered, `missing++` when
the key was never seen.  (The C source performs the three `++`s of the
drive line and of the sense line interleaved; since `++` on distinct
fields commutes the final array is the same.) -/
def bump_line (f : Nat → LineSummary) (line : Nat) (chatter missing : Bool) :
    Nat → LineSummary :=
  Function.update f line
    { involved := (f line).involved + 1,
      chatter_keys := (f line).chatter_keys + (if chatter then 1 else 0),
      missing := (f line).missing + (if missing then 1 else 0) }

/-- One iteration of the key loop of `keyscan_diag_fill_snapshot`
restricted to the `line_summary` accumulation: a valid mapped position
bumps the summaries of its drive and sense lines. -/
def summary_step (s : AState) (acc : Nat → LineSummary) (i : Nat) : Nat → LineSummary :=
  if (s.keyscan_line_map i).valid then
    bump_line
      (bump_line acc (s.keyscan_line_map i).drive
        (decide (0 < (s.keyscan_stats i).chatter_count)) (!(s.keyscan_stats i).seen))
      (s.keyscan_line_map i).sense
      (decide (0 < (s.keyscan_stats i).chatter_count)) (!(s.keyscan_stats i).seen)
  else acc

/-- The key loop of `keyscan_diag_fill_snapshot` restricted to its
`line_summary` accumulation: iterates positions `i` while
`i < KEYSCAN_DIAG_KEY_COUNT` and the response key array is not full
(`maxKeys` models `ARRAY_SIZE(out->keys)`), and for each valid mapped
position bumps the summaries of its drive and sense lines. -/
def snapshot_line_summaries (maxKeys : Nat) (s : AState) : Nat → LineSummary :=
  (List.range (min s.keyCount maxKeys)).foldl (summary_step s) (fun _ => ⟨0, 0, 0⟩)

/-- `zmk_keyscan_LineStatus` as filled by `keyscan_diag_fill_snapshot`
(hardware port/pin identity is external and omitted). -/
structure LineStatus where
  index : Nat
  activity : Nat
  involved_keys : Nat
  chatter_keys : Nat
  suspected_fault : Bool
  deriving DecidableEq

/-- The line loop of `keyscan_diag_fill_snapshot`: one `LineStatus` per
physical line (bounded by `ARRAY_SIZE(out->lines)`, modelled by
`maxLines`), with
`suspected_fault = involved > 0 && (activity == 0 || chatter_keys > 0 || missing > 0)`. -/
def snapshot_lines (maxKeys maxLines : Nat) (s : AState) : List LineStatus :=
  let summ := snapshot_line_summaries maxKeys s
  (List.range (min s.lineCount maxLines)).map fun i =>
    { index := i,
      activity := s.keyscan_diag_line_activity i,
      involved_keys := (summ i).involved,
      chatter_keys := (summ i).chatter_keys,
      suspected_fault :=
        decide (0 < (summ i).involved ∧
          (s.keyscan_diag_line_activity i = 0 ∨ 0 < (summ i).chatter_keys ∨
            0 < (summ i).missing)) }

/-- Specification-level count: number of positions among the first `m`
whose valid line pair includes `line` (the snapshot-derived
`involvedKeyCount`). -/
def involvedCount (s : AState) (m line : Nat) : Nat :=
  (List.range m).countP fun i =>
    decide ((s.keyscan_line_map i).valid = true ∧
      ((s.keyscan_line_map i).drive = line ∨ (s.keyscan_line_map i).sense = line))

/-- Specification-level count: involved positions with `chatter_count > 0`. -/
def chatterKeyCount (s : AState) (m line : Nat) : Nat :=
  (List.range m).countP fun i =>
    decide ((s.keyscan_line_map i).valid = true ∧
      ((s.keyscan_line_map i).drive = line ∨ (s.keyscan_line_map i).sense = line) ∧
      0 < (s.keyscan_stats i).chatter_count)

/-- Specification-level count: involved positions never seen. -/
def missingKeyCount (s : AState) (m line : Nat) : Nat :=
  (List.range m).countP fun i =>
    decide ((s.keyscan_line_map i).valid = true ∧
      ((s.keyscan_line_map i).drive = line ∨ (s.keyscan_line_map i).sense = line) ∧
      (s.keyscan_stats i).seen = false)

end DiagA

namespace DiagC

/-- `struct buffered_event`. -/
structure BufferedEvent where
  row : Nat
  col : Nat
  pressed : Bool
  timestamp_ms : Int
  deriving DecidableEq

instance : Inhabited BufferedEvent := ⟨⟨0, 0, false, 0⟩⟩

/-- `struct key_stats` of the `state`-struct engine variant. -/
structure KeyStatsEntry where
  press_count : Nat
  release_count : Nat
  current_state : Bool
  last_event_time : Int
  deriving DecidableEq

/-- Zero-initialized `key_stats` entry. -/
def keyStatsZero : KeyStatsEntry :=
  { press_count := 0, release_count := 0, current_state := false, last_event_time := 0 }

/-- `struct chattering_alert_info`. -/
structure ChatteringAlertInfo where
  row : Nat
  col : Nat
  event_count : Nat
  first_event_ms : Int
  last_event_ms : Int
  deriving DecidableEq

/-- The module `state` struct of this engine variant.  The fixed array
`events[MAX_EVENTS]` is a total function on indices; the live prefix of
`chattering_alerts[32]` is a list; `key_stats[120]` is a total function
on flat key indices. -/
structure CState where
  monitoring_active : Bool
  events : Nat → BufferedEvent
  event_head : Nat
  event_count : Nat
  total_events : Nat
  buffer_overflow : Bool
  chattering_window_ms : Nat
  chattering_threshold : Nat
  chattering_alerts : List ChatteringAlertInfo
  key_stats : Nat → KeyStatsEntry
  max_rows : Nat
  max_cols : Nat

/-- The alert-search loop of `record_key_event`: find the first alert for
`(row, col)`, bump its event count and last timestamp.  Returns `none`
when no alert for the key exists (`found == false`). -/
def update_existing_alert (row col : Nat) (now : Int) :
    List ChatteringAlertInfo → Option (List ChatteringAlertInfo)
  | [] => none
  | a :: rest =>
    if a.row = row ∧ a.col = col then
      some ({ a with event_count := (a.event_count + 1) % 2 ^ 32,
                     last_event_ms := now } :: rest)
    else (update_existing_alert row col now rest).map (a :: ·)

/-- `record_key_event` of the `state`-struct variant.  `maxEvents` is
`MAX_EVENTS`.  Complete no-op when `state.monitoring_active` is false;
otherwise appends to the circular buffer (overwriting the oldest and
setting `buffer_overflow` when full), bumps `total_events`, and updates
key statistics and the bounded chattering-alert list.  The C function
returns `void`: no error is ever signalled to the producer. -/
def record_key_event (maxEvents : Nat) (s : CState) (row col : Nat)
    (pressed : Bool) (now : Int) : CState :=
  if !s.monitoring_active then s
  else
    let s :=
      if s.event_count < maxEvents then
        { s with
          events := Function.update s.events
            ((s.event_head + s.event_count) % maxEvents) ⟨row, col, pressed, now⟩,
          event_count := s.event_count + 1 }
      else
        { s with
          events := Function.update s.events s.event_head ⟨row, col, pressed, now⟩,
          event_head := (s.event_head + 1) % maxEvents,
          buffer_overflow := true }
    let s := { s with total_events := (s.total_events + 1) % 2 ^ 32 }
    if row < s.max_rows ∧ col < s.max_cols then
      let key_idx := row * s.max_cols + col
      if key_idx < 120 then
        let ks := s.key_stats key_idx
        let ks1 :=
          { ks with
            press_count :=
              if pressed then (ks.press_count + 1) % 2 ^ 32 else ks.press_count,
            release_count :=
              if pressed then ks.release_count else (ks.release_count + 1) % 2 ^ 32,
            current_state := pressed }
        let alerts :=
          if ks1.last_event_time > 0 ∧
              now - ks1.last_event_time < (s.chattering_window_ms : Int) then
            match update_existing_alert row col now s.chattering_alerts with
            | some l => l
            | none =>
              if s.chattering_alerts.length < 32 then
                s.chattering_alerts ++ [⟨row, col, 2, ks1.last_event_time, now⟩]
              else s.chattering_alerts
          else s.chattering_alerts
        { s with
          key_stats := Function.update s.key_stats key_idx
            { ks1 with last_event_time := now },
          chattering_alerts := alerts }
      else s
    else s

/-- Record a list of events (producer-side ingestion, one critical
section per event). -/
def record_events (maxEvents : Nat) (s : CState) (es : List BufferedEvent) : CState :=
  es.foldl (fun s e => record_key_event maxEvents s e.row e.col e.pressed e.timestamp_ms) s

/-- `zmk_keyscan_diagnostics_GetEventsResponse` (the fields the handler
fills). -/
structure GetEventsResponse where
  buffer_overflow : Bool
  total_events : Nat
  events : List BufferedEvent
  deriving DecidableEq

/-- `handle_get_events`: copies `MIN(event_count, ARRAY_SIZE(events))`
events, oldest first, starting at `event_head`; `maxResp` models
`ARRAY_SIZE(events_resp->events)`.  Optionally drains the buffer. -/
def handle_get_events (maxEvents maxResp : Nat) (s : CState)
    (clear_buffer : Bool) : GetEventsResponse × CState :=
  let copy_count := min s.event_count maxResp
  let resp : GetEventsResponse :=
    { buffer_overflow := s.buffer_overflow,
      total_events := s.total_events,
      events := (List.range copy_count).map fun i =>
        s.events ((s.event_head + i) % maxEvents) }
  let s' :=
    if clear_buffer then
      { s with event_head := 0, event_count := 0, buffer_overflow := false }
    else s
  (resp, s')

/-- `zmk_keyscan_diagnostics_StartMonitoringResponse`. -/
structure StartMonitoringResponse where
  success : Bool
  message : String
  deriving DecidableEq

/-- `handle_start_monitoring` of the `state`-struct variant: activates
monitoring, resets the circular buffer, the total-events counter, the
overflow flag, the alert list and all per-key statistics, fixes the
charlieplex dimensions, and reports a success flag (`device_ready`
models whether `device_is_ready(kscan_dev)` holds — an external
hardware fact). -/
def handle_start_monitoring (lineCount : Nat) (device_ready : Bool)
    (s : CState) : CState × StartMonitoringResponse :=
  let s' :=
    { s with
      monitoring_active := true, event_head := 0, event_count := 0,
      total_events := 0, buffer_overflow := false,
      chattering_alerts := [],
      key_stats := fun _ => keyStatsZero,
      max_rows := lineCount, max_cols := lineCount }
  (s',
    if device_ready then ⟨true, "Monitoring started (charlieplex)"⟩
    else ⟨false, "Kscan device not ready"⟩)

/-- `handle_stop_monitoring`. -/
def handle_stop_monitoring (s : CState) : CState × Bool :=
  ({ s with monitoring_active := false }, true)

/-- `handle_configure_chattering`: a zero field leaves the corresponding
setting unchanged. -/
def handle_configure_chattering (s : CState) (window_ms threshold_count : Nat) :
    CState × Bool :=
  let s := if 0 < window_ms then { s with chattering_window_ms := window_ms } else s
  let s :=
    if 0 < threshold_count then { s with chattering_threshold := threshold_count } else s
  (s, true)

/-- `handle_get_chattering_alerts`: alerts whose event count meets the
configured threshold, capped at `ARRAY_SIZE(alerts_resp->alerts)`
(`maxAlerts`); optionally clears the alert list. -/
def handle_get_chattering_alerts (maxAlerts : Nat) (s : CState)
    (clear_alerts : Bool) : List ChatteringAlertInfo × CState :=
  let out :=
    (s.chattering_alerts.filter fun a =>
      decide (s.chattering_threshold ≤ a.event_count)).take maxAlerts
  (out, if clear_alerts then { s with chattering_alerts := [] } else s)

/-- The row-major diagonal-excluded pair enumeration of
`handle_get_key_matrix`: `row` in `[0, N)`, `col` in `[0, N)`,
skipping `row == col`. -/
def charlieplex_pairs (N : Nat) : List (Nat × Nat) :=
  (List.range N).flatMap fun row =>
    ((List.range N).filter fun col => decide (row ≠ col)).map fun col => (row, col)

/-- `zmk_keyscan_diagnostics_KeyInfo`. -/
structure KeyInfo where
  row : Nat
  col : Nat
  gpio_out_index : Nat
  gpio_in_index : Nat
  current_state : Bool
  press_count : Nat
  release_count : Nat
  deriving DecidableEq

/-- `zmk_keyscan_diagnostics_GetKeyMatrixResponse` (charlieplex case). -/
structure KeyMatrixResponse where
  rows : Nat
  cols : Nat
  keys : List KeyInfo
  deriving DecidableEq

/-- `handle_get_key_matrix` (charlieplex case): enumerates off-diagonal
pairs row-major, assigning consecutive key slots, capped at
`ARRAY_SIZE(matrix->keys)` (`maxKeys`), and attaches the per-key
statistics stored at flat index `row * N + col` when within the
120-entry stats array. -/
def handle_get_key_matrix (N maxKeys : Nat) (s : CState) : KeyMatrixResponse :=
  { rows := N, cols := N,
    keys := ((charlieplex_pairs N).take maxKeys).map fun rc =>
      let key_idx := rc.1 * N + rc.2
      { row := rc.1, col := rc.2, gpio_out_index := rc.1, gpio_in_index := rc.2,
        current_state :=
          if key_idx < 120 then (s.key_stats key_idx).current_state else false,
        press_count :=
          if key_idx < 120 then (s.key_stats key_idx).press_count else 0,
        release_count :=
          if key_idx < 120 then (s.key_stats key_idx).release_count else 0 } }

/-- The counting scan of `keyscan_diagnostics_position_listener`: walk a
pair list, decrementing the target position, and return the pair where
the running counter hits it. -/
def position_scan : Nat → List (Nat × Nat) → Option (Nat × Nat)
  | _, [] => none
  | 0, p :: _ => some p
  | n + 1, _ :: rest => position_scan n rest

/-- `keyscan_diagnostics_position_listener` (charlieplex case): converts
a logical key position back to the `(row, col)` pair by re-running the
same row-major diagonal-excluded enumeration with a counter. -/
def keyscan_diagnostics_position_listener (N pos : Nat) : Option (Nat × Nat) :=
  position_scan pos (charlieplex_pairs N)

/-- `zmk_keyscan_diagnostics_KscanConfig` reduced to the fields the
engine computes itself (GPIO specs and debounce values come from the
device tree and are external). -/
structure KscanConfigResponse where
  gpios_count : Nat
  deriving DecidableEq

/-- `handle_get_kscan_config` (charlieplex case): reports the topology
and, as a side effect, fixes the state's matrix dimensions. -/
def handle_get_kscan_config (N : Nat) (s : CState) : KscanConfigResponse × CState :=
  (⟨N⟩, { s with max_rows := N, max_cols := N })

/-- `zmk_keyscan_diagnostics_TestGpioPinResponse`. -/
structure TestGpioPinResponse where
  gpio_index : Nat
  success : Bool
  pin_state : Bool
  error_message : String
  deriving DecidableEq

/-- `handle_test_gpio_pin`: rejects out-of-range indices with an error
message in the payload (still a normal response, `rc = 0`); otherwise
delegates to the external GPIO driver (`gpio_read`, `none` standing for
"port not ready / read error"). -/
def handle_test_gpio_pin (N : Nat) (gpio_read : Nat → Option Bool)
    (gpio_index : Nat) : TestGpioPinResponse :=
  if N ≤ gpio_index then
    { gpio_index := gpio_index, success := false, pin_state := false,
      error_message := "Invalid GPIO index" }
  else
    match gpio_read gpio_index with
    | none =>
      { gpio_index := gpio_index, success := false, pin_state := false,
        error_message := "GPIO read error" }
    | some v =>
      { gpio_index := gpio_index, success := true, pin_state := v,
        error_message := "" }

/-- `zmk_keyscan_diagnostics_Request`: the tagged union of decoded
request payloads.  `unknownTag` stands for a well-formed message whose
`which_request_type` is none of the supported tags (the `default` arm
of the dispatch switch). -/
inductive CRequest where
  | get_kscan_config
  | get_key_matrix
  | start_monitoring
  | stop_monitoring
  | get_events (clear_buffer : Bool)
  | configure_chattering (window_ms threshold_count : Nat)
  | get_chattering_alerts (clear_alerts : Bool)
  | test_gpio_pin (gpio_index : Nat)
  | unknownTag (n : Nat)
  deriving DecidableEq

/-- `zmk_keyscan_diagnostics_Response`: the tagged union of response
payloads; exactly one case is ever set. -/
inductive CResponse where
  | kscan_config (c : KscanConfigResponse)
  | key_matrix (m : KeyMatrixResponse)
  | start_monitoring (r : StartMonitoringResponse)
  | stop_monitoring (success : Bool)
  | events (r : GetEventsResponse)
  | configure_chattering (success : Bool)
  | chattering_alerts (alerts : List ChatteringAlertInfo)
  | test_gpio_pin (r : TestGpioPinResponse)
  | error (message : String)

/-- `keyscan_diagnostics_handle_request`: decode (`none` = `pb_decode`
failure), dispatch exactly one request variant to one handler, and
produce exactly one response variant.  In the C source every supported
handler returns `rc = 0`, so the trailing `rc != 0` arm fires exactly
for decode failures (handled earlier) and the unsupported `default`
arm (`rc = -1`). -/
def keyscan_diagnostics_handle_request (N maxEvents maxResp maxAlerts maxKeys : Nat)
    (device_ready : Bool) (gpio_read : Nat → Option Bool)
    (s : CState) (decoded : Option CRequest) : CResponse × CState :=
  match decoded with
  | none => (.error "Failed to decode request", s)
  | some req =>
    match req with
    | .get_kscan_config =>
      let (c, s') := handle_get_kscan_config N s
      (.kscan_config c, s')
    | .get_key_matrix => (.key_matrix (handle_get_key_matrix N maxKeys s), s)
    | .start_monitoring =>
      let (s', r) := handle_start_monitoring N device_ready s
      (.start_monitoring r, s')
    | .stop_monitoring =>
      let (s', ok) := handle_stop_monitoring s
      (.stop_monitoring ok, s')
    | .get_events cb =>
      let (r, s') := handle_get_events maxEvents maxResp s cb
      (.events r, s')
    | .configure_chattering w t =>
      let (s', ok) := handle_configure_chattering s w t
      (.configure_chattering ok, s')
    | .get_chattering_alerts ca =>
      let (al, s') := handle_get_chattering_alerts maxAlerts s ca
      (.chattering_alerts al, s')
    | .test_gpio_pin idx => (.test_gpio_pin (handle_test_gpio_pin N gpio_read idx), s)
    | .unknownTag _ => (.error "Failed to process request", s)

/-- Whether a response is the `Error` variant. -/
def isError : CResponse → Bool
  | .error _ => true
  | _ => false

/-- Whether a decoded input must produce the `Error` variant: decode
failure or unrecognized tag. -/
def isUnsupported : Option CRequest → Bool
  | none => true
  | some (.unknownTag _) => true
  | some _ => false

/-- The `which_response_type` tag of a response. -/
def responseTag : CResponse → Nat
  | .kscan_config _ => 1
  | .key_matrix _ => 2
  | .start_monitoring _ => 3
  | .stop_monitoring _ => 4
  | .events _ => 5
  | .configure_chattering _ => 6
  | .chattering_alerts _ => 7
  | .test_gpio_pin _ => 8
  | .error _ => 9

/-- The response tag each decoded input must map to: each supported
request variant has exactly one matching response variant; decode
failures and unknown tags map to the error variant. -/
def expectedTag : Option CRequest → Nat
  | none => 9
  | some .get_kscan_config => 1
  | some .get_key_matrix => 2
  | some .start_monitoring => 3
  | some .stop_monitoring => 4
  | some (.get_events _) => 5
  | some (.configure_chattering _ _) => 6
  | some (.get_chattering_alerts _) => 7
  | some (.test_gpio_pin _) => 8
  | some (.unknownTag _) => 9

end DiagC

namespace DiagD

/-- `struct keyscan_diag_event` (uint64 timestamp). -/
structure DEvent where
  row : Nat
  col : Nat
  pressed : Bool
  timestamp_ms : Nat
  deriving DecidableEq

instance : Inhabited DEvent := ⟨⟨0, 0, false, 0⟩⟩

/-- `struct keyscan_diag_chatter_stats`. -/
structure DChatterStats where
  row : Nat
  col : Nat
  event_count : Nat
  chatter_count : Nat
  last_event_ms : Nat
  min_interval_ms : Nat
  deriving DecidableEq

/-- A freshly created stats entry (`min_interval_ms = UINT32_MAX`). -/
def chatterStatsInit (row col : Nat) : DChatterStats :=
  { row := row, col := col, event_count := 0, chatter_count := 0,
    last_event_ms := 0, min_interval_ms := 2 ^ 32 - 1 }

/-- `struct keyscan_diag_gpio_pin`. -/
structure GpioPin where
  pin : Nat
  port_name : String
  deriving DecidableEq

/-- The module-level state of the library variant.  The fixed array
`event_buffer[EVENT_BUFFER_SIZE]` is a total function on indices; the
live prefixes of `chatter_stats[32]` and `gpio_pins[16]` are lists. -/
structure DState where
  event_buffer : Nat → DEvent
  event_buffer_head : Nat
  event_buffer_count : Nat
  total_event_count : Nat
  chatter_stats : List DChatterStats
  gpio_pins : List GpioPin
  matrix_rows : Nat
  matrix_cols : Nat
  monitoring_active : Bool
  chatter_threshold_ms : Nat

/-- `add_event`: write at `event_buffer_head`, advance the head mod
`EVENT_BUFFER_SIZE` (`size`), saturate the count at the capacity, and
bump the uint32 total. -/
def add_event (size : Nat) (s : DState) (row col : Nat) (pressed : Bool)
    (timestamp_ms : Nat) : DState :=
  { s with
    event_buffer := Function.update s.event_buffer s.event_buffer_head
      ⟨row, col, pressed, timestamp_ms⟩,
    event_buffer_head := (s.event_buffer_head + 1) % size,
    event_buffer_count :=
      if s.event_buffer_count < size then s.event_buffer_count + 1
      else s.event_buffer_count,
    total_event_count := (s.total_event_count + 1) % 2 ^ 32 }

/-- The per-entry body of `update_chatter_stats`: bump the event count,
and when a previous event exists compute the interval
(`uint64` difference truncated to `uint32`), update the minimum, and
bump `chatter_count` when the interval is below the threshold; finally
stamp `last_event_ms`. -/
def chatter_entry_update (threshold_ms : Nat) (e : DChatterStats)
    (timestamp_ms : Nat) : DChatterStats :=
  let e := { e with event_count := (e.event_count + 1) % 2 ^ 32 }
  let e :=
    if 0 < e.last_event_ms then
      let interval := (2 ^ 64 + timestamp_ms - e.last_event_ms) % 2 ^ 64 % 2 ^ 32
      let e :=
        if interval < e.min_interval_ms then { e with min_interval_ms := interval }
        else e
      if interval < threshold_ms then
        { e with chatter_count := (e.chatter_count + 1) % 2 ^ 32 }
      else e
    else e
  { e with last_event_ms := timestamp_ms }

/-- The search part of `get_chatter_stats`: update the first entry
matching `(row, col)` in place, `none` when the key has no entry yet. -/
def update_chatter_stats_list (threshold_ms timestamp_ms row col : Nat) :
    List DChatterStats → Option (List DChatterStats)
  | [] => none
  | e :: rest =>
    if e.row = row ∧ e.col = col then
      some (chatter_entry_update threshold_ms e timestamp_ms :: rest)
    else (update_chatter_stats_list threshold_ms timestamp_ms row col rest).map (e :: ·)

/-- `update_chatter_stats` composed with `get_chatter_stats`: update the
existing entry, or create one (then update it) when fewer than
`MAX_CHATTER_STATS = 32` entries exist; when the table is full
`get_chatter_stats` returns `NULL` and the update is silently
dropped. -/
def update_chatter_stats (s : DState) (row col timestamp_ms : Nat) : DState :=
  match update_chatter_stats_list s.chatter_threshold_ms timestamp_ms row col
      s.chatter_stats with
  | some l => { s with chatter_stats := l }
  | none =>
    if s.chatter_stats.length < 32 then
      { s with chatter_stats := s.chatter_stats ++
          [chatter_entry_update s.chatter_threshold_ms (chatterStatsInit row col)
            timestamp_ms] }
    else s

/-- `keyscan_diagnostics_event_callback`: drops the event entirely when
monitoring is inactive; otherwise appends it to the circular buffer and
updates the chattering statistics, all under the mutex. -/
def keyscan_diagnostics_event_callback (size : Nat) (s : DState) (row col : Nat)
    (pressed : Bool) (timestamp_ms : Nat) : DState :=
  if !s.monitoring_active then s
  else update_chatter_stats (add_event size s row col pressed timestamp_ms)
    row col timestamp_ms

/-- `keyscan_diagnostics_clear`: resets the buffer head/count, the total
counter and the chattering table; everything else is untouched. -/
def keyscan_diagnostics_clear (s : DState) : DState :=
  { s with event_buffer_head := 0, event_buffer_count := 0,
           total_event_count := 0, chatter_stats := [] }

/-- `keyscan_diagnostics_start`: a positive argument overrides the
chatter threshold, then monitoring is activated. -/
def keyscan_diagnostics_start (s : DState) (chatter_threshold : Nat) : DState :=
  { s with
    chatter_threshold_ms :=
      if 0 < chatter_threshold then chatter_threshold else s.chatter_threshold_ms,
    monitoring_active := true }

/-- `keyscan_diagnostics_stop`. -/
def keyscan_diagnostics_stop (s : DState) : DState :=
  { s with monitoring_active := false }

/-- `keyscan_diagnostics_is_monitoring`. -/
def keyscan_diagnostics_is_monitoring (s : DState) : Bool :=
  s.monitoring_active

/-- `keyscan_diagnostics_get_total_events`. -/
def keyscan_diagnostics_get_total_events (s : DState) : Nat :=
  s.total_event_count

/-- `keyscan_diagnostics_get_recent_events`: the most recent
`MIN(count, max_count)` events in chronological order, read backwards
from the head of the circular buffer. -/
def keyscan_diagnostics_get_recent_events (size : Nat) (s : DState)
    (max_count : Nat) : List DEvent :=
  if max_count = 0 then []
  else
    let count := min s.event_buffer_count max_count
    let start := (s.event_buffer_head + size - count) % size
    (List.range count).map fun i => s.event_buffer ((start + i) % size)

/-- `keyscan_diagnostics_get_chatter_stats`: copy out the first
`MIN(chatter_stats_count, max_count)` entries. -/
def keyscan_diagnostics_get_chatter_stats (s : DState) (max_count : Nat) :
    List DChatterStats :=
  if max_count = 0 then []
  else s.chatter_stats.take (min s.chatter_stats.length max_count)

/-- `keyscan_diagnostics_get_gpio_pins`. -/
def keyscan_diagnostics_get_gpio_pins (s : DState) (max_count : Nat) :
    List GpioPin :=
  if max_count = 0 then []
  else s.gpio_pins.take (min s.gpio_pins.length max_count)

/-- `keyscan_diagnostics_get_matrix_size`. -/
def keyscan_diagnostics_get_matrix_size (s : DState) : Nat × Nat :=
  (s.matrix_rows, s.matrix_cols)

/-- `handle_start_monitoring` of the thin RPC variant: a zero
`chatter_threshold_ms` in the request selects the configured default
(`CONFIG_ZMK_KEYSCAN_DIAGNOSTICS_CHATTER_THRESHOLD_MS`, modelled as
`default_threshold`), then `keyscan_diagnostics_start` is invoked;
`rc = 0` is reported as `success = true`. -/
def handle_start_monitoring_rpc (default_threshold : Nat) (s : DState)
    (req_chatter_threshold_ms : Nat) : DState × Bool :=
  let t :=
    if req_chatter_threshold_ms = 0 then default_threshold
    else req_chatter_threshold_ms
  (keyscan_diagnostics_start s t, true)

end DiagD

/-- A small concrete state of the listener variant: one key whose stat
record has `press_count = 1`. -/
def aStateEx : DiagA.AState :=
  { keyCount := 1, lineCount := 2,
    keyscan_stats := fun _ => { DiagA.statZero with press_count := 1 },
    keyscan_line_map := fun _ => ⟨0, 1, true⟩,
    keyscan_diag_line_activity := fun _ => 0 }

/-- A small concrete state of the `state`-struct variant with monitoring
inactive. -/
def cStateEx : DiagC.CState :=
  { monitoring_active := false, events := fun _ => default, event_head := 0,
    event_count := 0, total_events := 0, buffer_overflow := false,
    chattering_window_ms := 50, chattering_threshold := 4,
    chattering_alerts := [], key_stats := fun _ => DiagC.keyStatsZero,
    max_rows := 4, max_cols := 4 }

/-- A small concrete state of the library variant with monitoring
inactive and empty tables. -/
def dStateEx : DiagD.DState :=
  { event_buffer := fun _ => default, event_buffer_head := 0,
    event_buffer_count := 0, total_event_count := 0, chatter_stats := [],
    gpio_pins := [⟨2, "gpio0"⟩], matrix_rows := 4, matrix_cols := 4,
    monitoring_active := false, chatter_threshold_ms := 50 }

/-- A concrete state of the library variant whose chattering table holds
32 distinct keys `(i, 0)`, `i < 32`, with monitoring active. -/
def dFullEx : DiagD.DState :=
  { event_buffer := fun _ => default, event_buffer_head := 3,
    event_buffer_count := 7, total_event_count := 40,
    chatter_stats := (List.range 32).map fun i => DiagD.chatterStatsInit i 0,
    gpio_pins := [], matrix_rows := 33, matrix_cols := 33,
    monitoring_active := true, chatter_threshold_ms := 50 }

/-! ## Helper lemmas -/

/-- The chatter detector never touches `press_count`. -/
theorem update_chatter_press (w b : Nat) (st : DiagA.KeyscanDiagStat) (t : Int) :
    (DiagA.keyscan_diag_update_chatter w b st t).press_count = st.press_count := by
  unfold DiagA.keyscan_diag_update_chatter
  dsimp only
  split <;> split <;> rfl

/-- The chatter detector never touches `release_count`. -/
theorem update_chatter_release (w b : Nat) (st : DiagA.KeyscanDiagStat) (t : Int) :
    (DiagA.keyscan_diag_update_chatter w b st t).release_count = st.release_count := by
  unfold DiagA.keyscan_diag_update_chatter
  dsimp only
  split <;> split <;> rfl

/-- Below the uint32 wrap point the chatter detector never decreases
`chatter_count`. -/
theorem update_chatter_chatter_mono (w b : Nat) (st : DiagA.KeyscanDiagStat) (t : Int)
    (hc : st.chatter_count + 1 < 2 ^ 32) :
    st.chatter_count ≤ (DiagA.keyscan_diag_update_chatter w b st t).chatter_count := by
  unfold DiagA.keyscan_diag_update_chatter
  dsimp only
  split <;> split <;> simp_all [Nat.mod_eq_of_lt hc] <;> omega

/-- When no entry for `(row, col)` exists, the in-place update of the
chattering table reports `none`. -/
theorem update_chatter_stats_list_not_found (th ts row col : Nat)
    (l : List DiagD.DChatterStats)
    (h : ∀ e ∈ l, ¬(e.row = row ∧ e.col = col)) :
    DiagD.update_chatter_stats_list th ts row col l = none := by
  induction l with
  | nil => rfl
  | cons e rest ih =>
    unfold DiagD.update_chatter_stats_list
    rw [if_neg (h e (List.mem_cons_self e rest))]
    rw [ih fun x hx => h x (List.mem_cons_of_mem e hx)]
    rfl

/-! ## Claims -/

/-- C1: recording an event while `monitoring_active` is false is a
complete no-op on the whole diagnostic state (key statistics, event
buffer, total-events counter, chattering data all unchanged) in both
event-ingestion implementations carrying the flag; the recording
functions return no error to the producer (`void` in C). -/
theorem claim_C1_inactive_noop (maxEvents : Nat) (s : DiagC.CState) (row col : Nat)
    (pressed : Bool) (now : Int) (size : Nat) (d : DiagD.DState) (drow dcol : Nat)
    (dp : Bool) (dts : Nat)
    (hs : s.monitoring_active = false) (hd : d.monitoring_active = false) :
    DiagC.record_key_event maxEvents s row col pressed now = s ∧
    DiagD.keyscan_diagnostics_event_callback size d drow dcol dp dts = d := by
  constructor
  · unfold DiagC.record_key_event
    rw [hs]
    rfl
  · unfold DiagD.keyscan_diagnostics_event_callback
    rw [hd]
    rfl

/-- C1 witness: a concrete inactive state is left untouched by a
concrete event. -/
theorem claim_C1_witness :
    cStateEx.monitoring_active = false ∧ dStateEx.monitoring_active = false ∧
    DiagC.record_key_event 8 cStateEx 0 1 true 5 = cStateEx ∧
    DiagD.keyscan_diagnostics_event_callback 8 dStateEx 0 1 true 5 = dStateEx := by
  have h := claim_C1_inactive_noop 8 cStateEx 0 1 true 5 8 dStateEx 0 1 true 5 rfl rfl
  exact ⟨rfl, rfl, h.1, h.2⟩

/-- C2 counterexample: with `chatterWindowMs = 30`,
`chatterBurstThreshold = 3` and burst fields starting zeroed, events at
`t = 0, 5, 10` do NOT make `chatter_count` equal 1: the first event's
timestamp 0 collides with the `burst_start == 0` "no burst" sentinel,
so the second event restarts the burst and the count is still 0 after
the third event. -/
theorem claim_C2_counterexample :
    ¬(DiagA.chatter_run 30 3 DiagA.statZero [0, 5, 10]).chatter_count = 1 := by
  decide

/-- C2 (amended): with `chatterWindowMs = 30`,
`chatterBurstThreshold = 3` and burst fields starting zeroed, events at
nonzero timestamps `t = 1, 6, 11` make `chatter_count` become exactly 1
after the third event and reset the burst (`burst = 0`, window
re-anchored), so a fourth event at `t = 16` starts a fresh burst
(`burst = 1`) instead of immediately incrementing `chatter_count`
again. -/
theorem claim_C2_amended :
    (DiagA.chatter_run 30 3 DiagA.statZero [1, 6, 11]).chatter_count = 1 ∧
    (DiagA.chatter_run 30 3 DiagA.statZero [1, 6, 11]).burst = 0 ∧
    (DiagA.chatter_run 30 3 DiagA.statZero [1, 6, 11]).burst_start = 11 ∧
    (DiagA.chatter_run 30 3 DiagA.statZero [1, 6, 11, 16]).chatter_count = 1 ∧
    (DiagA.chatter_run 30 3 DiagA.statZero [1, 6, 11, 16]).burst = 1 := by
  decide

/-- C6: `keyscan_diagnostics_clear` zeroes the buffer head and count,
the total-events counter and the chattering table, and changes nothing
else (monitoring flag, chatter threshold, GPIO topology, matrix
dimensions, buffer storage are preserved); afterwards the state queries
report zero totals, no events and no chattering entries, while the
configuration accessors answer exactly as before. -/
theorem claim_C6_clear_frame (s : DiagD.DState) (m size : Nat) :
    (DiagD.keyscan_diagnostics_clear s).event_buffer_head = 0 ∧
    (DiagD.keyscan_diagnostics_clear s).event_buffer_count = 0 ∧
    (DiagD.keyscan_diagnostics_clear s).total_event_count = 0 ∧
    (DiagD.keyscan_diagnostics_clear s).chatter_stats = [] ∧
    (DiagD.keyscan_diagnostics_clear s).monitoring_active = s.monitoring_active ∧
    (DiagD.keyscan_diagnostics_clear s).chatter_threshold_ms = s.chatter_threshold_ms ∧
    (DiagD.keyscan_diagnostics_clear s).gpio_pins = s.gpio_pins ∧
    (DiagD.keyscan_diagnostics_clear s).matrix_rows = s.matrix_rows ∧
    (DiagD.keyscan_diagnostics_clear s).matrix_cols = s.matrix_cols ∧
    (DiagD.keyscan_diagnostics_clear s).event_buffer = s.event_buffer ∧
    DiagD.keyscan_diagnostics_get_total_events (DiagD.keyscan_diagnostics_clear s) = 0 ∧
    DiagD.keyscan_diagnostics_get_recent_events size
      (DiagD.keyscan_diagnostics_clear s) m = [] ∧
    DiagD.keyscan_diagnostics_get_chatter_stats
      (DiagD.keyscan_diagnostics_clear s) m = [] ∧
    DiagD.keyscan_diagnostics_is_monitoring (DiagD.keyscan_diagnostics_clear s) =
      DiagD.keyscan_diagnostics_is_monitoring s ∧
    DiagD.keyscan_diagnostics_get_gpio_pins (DiagD.keyscan_diagnostics_clear s) m =
      DiagD.keyscan_diagnostics_get_gpio_pins s m ∧
    DiagD.keyscan_diagnostics_get_matrix_size (DiagD.keyscan_diagnostics_clear s) =
      DiagD.keyscan_diagnostics_get_matrix_size s := by
  refine ⟨rfl, rfl, rfl, rfl, rfl, rfl, rfl, rfl, rfl, rfl, rfl, ?_, ?_, rfl, rfl, rfl⟩
  · unfold DiagD.keyscan_diagnostics_get_recent_events DiagD.keyscan_diagnostics_clear
    cases m <;> simp
  · unfold DiagD.keyscan_diagnostics_get_chatter_stats DiagD.keyscan_diagnostics_clear
    cases m <;> simp

/-- C7: StartMonitoring.  The `state`-struct handler sets the
monitoring flag, resets the event buffer indices, the total counter,
the overflow flag, the chattering alerts and all per-key statistics,
and reports a success flag (echoing whether the kscan device is ready).
The RPC/library pair additionally implements the threshold override: a
zero request value selects the configured default, a nonzero value
replaces the threshold, and success is reported. -/
theorem claim_C7_start_monitoring (N : Nat) (device_ready : Bool) (s : DiagC.CState)
    (default_threshold r : Nat) (d : DiagD.DState)
    (hdflt : 0 < default_threshold) :
    (DiagC.handle_start_monitoring N device_ready s).1.monitoring_active = true ∧
    (DiagC.handle_start_monitoring N device_ready s).1.event_head = 0 ∧
    (DiagC.handle_start_monitoring N device_ready s).1.event_count = 0 ∧
    (DiagC.handle_start_monitoring N device_ready s).1.total_events = 0 ∧
    (DiagC.handle_start_monitoring N device_ready s).1.buffer_overflow = false ∧
    (DiagC.handle_start_monitoring N device_ready s).1.chattering_alerts = [] ∧
    (DiagC.handle_start_monitoring N device_ready s).1.key_stats =
      (fun _ => DiagC.keyStatsZero) ∧
    (DiagC.handle_start_monitoring N device_ready s).2.success = device_ready ∧
    (DiagD.handle_start_monitoring_rpc default_threshold d r).1.monitoring_active
      = true ∧
    (DiagD.handle_start_monitoring_rpc default_threshold d r).1.chatter_threshold_ms
      = (if r = 0 then default_threshold else r) ∧
    (DiagD.handle_start_monitoring_rpc default_threshold d r).2 = true := by
  refine ⟨rfl, rfl, rfl, rfl, rfl, rfl, rfl, ?_, rfl, ?_, rfl⟩
  · unfold DiagC.handle_start_monitoring
    cases device_ready <;> rfl
  · unfold DiagD.handle_start_monitoring_rpc DiagD.keyscan_diagnostics_start
    rcases Nat.eq_zero_or_pos r with hr | hr
    · simp [hr, hdflt]
    · simp [Nat.pos_iff_ne_zero.mp hr, hr]

/-- C7 witness: concrete instantiation with a positive configured
default threshold. -/
theorem claim_C7_witness :
    0 < 50 ∧
    (DiagC.handle_start_monitoring 4 true cStateEx).1.monitoring_active = true ∧
    (DiagD.handle_start_monitoring_rpc 50 dStateEx 0).1.chatter_threshold_ms = 50 ∧
    (DiagD.handle_start_monitoring_rpc 50 dStateEx 7).1.chatter_threshold_ms = 7 := by
  have h₀ := claim_C7_start_monitoring 4 true cStateEx 50 0 dStateEx (by decide)
  have h₇ := claim_C7_start_monitoring 4 true cStateEx 50 7 dStateEx (by decide)
  refine ⟨by decide, h₀.1, ?_, ?_⟩
  · have := h₀.2.2.2.2.2.2.2.2.2.1
    simpa using this
  · have := h₇.2.2.2.2.2.2.2.2.2.1
    simpa using this

/-- C8 counterexample: `keyscan_diag_reset_counters` is an operation of
the engine (invoked by the snapshot-with-reset path), and on a state
whose key 0 has `press_count = 1` it strictly decreases
`press_count + release_count`. -/
theorem claim_C8_counterexample :
    ((DiagA.keyscan_diag_reset_counters aStateEx).keyscan_stats 0).press_count +
      ((DiagA.keyscan_diag_reset_counters aStateEx).keyscan_stats 0).release_count <
    (aStateEx.keyscan_stats 0).press_count +
      (aStateEx.keyscan_stats 0).release_count := by
  decide

/-- C8 (amended): across every event-recording operation (the position
listener with its chatter update), `pressCount + releaseCount` and
`chatterCount` of every key are non-decreasing, provided the
incremented uint32 counters are below their wrap point; reset
operations (`keyscan_diag_reset_counters`, triggered by
snapshot-with-reset) set the counters back to zero. -/
theorem claim_C8_amended (w b : Nat) (s : DiagA.AState) (pos k : Nat)
    (pressed : Bool) (ts : Int)
    (hp : (s.keyscan_stats k).press_count + 1 < 2 ^ 32)
    (hr : (s.keyscan_stats k).release_count + 1 < 2 ^ 32)
    (hc : (s.keyscan_stats k).chatter_count + 1 < 2 ^ 32) :
    (s.keyscan_stats k).press_count + (s.keyscan_stats k).release_count ≤
      ((DiagA.keyscan_diag_listener w b s pos pressed ts).keyscan_stats k).press_count +
      ((DiagA.keyscan_diag_listener w b s pos pressed ts).keyscan_stats k).release_count ∧
    (s.keyscan_stats k).chatter_count ≤
      ((DiagA.keyscan_diag_listener w b s pos pressed ts).keyscan_stats k).chatter_count := by
  unfold DiagA.keyscan_diag_listener
  dsimp only
  split
  · exact ⟨le_refl _, le_refl _⟩
  · have hstats :
        ∀ t : DiagA.AState,
          t.keyscan_stats = Function.update s.keyscan_stats pos
            (DiagA.keyscan_diag_update_chatter w b
              { s.keyscan_stats pos with
                seen := true, pressed := pressed, last_change := ts,
                press_count :=
                  if pressed then ((s.keyscan_stats pos).press_count + 1) % 2 ^ 32
                  else (s.keyscan_stats pos).press_count,
                release_count :=
                  if pressed then (s.keyscan_stats pos).release_count
                  else ((s.keyscan_stats pos).release_count + 1) % 2 ^ 32 } ts) →
          (s.keyscan_stats k).press_count + (s.keyscan_stats k).release_count ≤
            (t.keyscan_stats k).press_count + (t.keyscan_stats k).release_count ∧
          (s.keyscan_stats k).chatter_count ≤ (t.keyscan_stats k).chatter_count := by
      intro t ht
      by_cases hk : k = pos
      · subst hk
        rw [ht, Function.update_same]
        rw [update_chatter_press, update_chatter_release] at *
        constructor
        · cases pressed <;>
            simp [Nat.mod_eq_of_lt hp, Nat.mod_eq_of_lt hr] <;> omega
        · refine le_trans ?_ (update_chatter_chatter_mono w b _ ts ?_)
          · rfl
          · exact hc
      · rw [ht, Function.update_noteq hk]
        exact ⟨le_refl _, le_refl _⟩
    split
    · exact hstats _ rfl
    · exact hstats _ rfl

/-- C8 witness: concrete instantiation on a one-key state. -/
theorem claim_C8_witness :
    (aStateEx.keyscan_stats 0).press_count + 1 < 2 ^ 32 ∧
    (aStateEx.keyscan_stats 0).press_count + (aStateEx.keyscan_stats 0).release_count ≤
      ((DiagA.keyscan_diag_listener 30 3 aStateEx 0 true 5).keyscan_stats 0).press_count +
      ((DiagA.keyscan_diag_listener 30 3 aStateEx 0 true 5).keyscan_stats 0).release_count := by
  have h := claim_C8_amended 30 3 aStateEx 0 0 true 5 (by decide) (by decide) (by decide)
  exact ⟨by decide, h.1⟩

/-- C10: once the chattering table holds 32 distinct keys, an event on a
33rd distinct key (with monitoring active) leaves the whole chattering
table unchanged — the update is silently dropped — while the event is
still written into the circular buffer and the total-events counter
still increments. -/
theorem claim_C10_full_table (size : Nat) (s : DiagD.DState) (row col : Nat)
    (pressed : Bool) (ts : Nat)
    (hact : s.monitoring_active = true)
    (hfull : s.chatter_stats.length = 32)
    (hnew : ∀ e ∈ s.chatter_stats, ¬(e.row = row ∧ e.col = col)) :
    (DiagD.keyscan_diagnostics_event_callback size s row col pressed ts).chatter_stats
      = s.chatter_stats ∧
    (DiagD.keyscan_diagnostics_event_callback size s row col pressed ts).event_buffer
      = Function.update s.event_buffer s.event_buffer_head ⟨row, col, pressed, ts⟩ ∧
    (DiagD.keyscan_diagnostics_event_callback size s row col pressed ts).event_buffer_head
      = (s.event_buffer_head + 1) % size ∧
    (DiagD.keyscan_diagnostics_event_callback size s row col pressed ts).event_buffer_count
      = (if s.event_buffer_count < size then s.event_buffer_count + 1
         else s.event_buffer_count) ∧
    (DiagD.keyscan_diagnostics_event_callback size s row col pressed ts).total_event_count
      = (s.total_event_count + 1) % 2 ^ 32 := by
  unfold DiagD.keyscan_diagnostics_event_callback
  rw [hact]
  have hnone :
      DiagD.update_chatter_stats_list
        (DiagD.add_event size s row col pressed ts).chatter_threshold_ms ts row col
        (DiagD.add_event size s row col pressed ts).chatter_stats = none := by
    exact update_chatter_stats_list_not_found _ _ _ _ _ hnew
  unfold DiagD.update_chatter_stats
  rw [hnone]
  have hlen : ¬(DiagD.add_event size s row col pressed ts).chatter_stats.length < 32 := by
    show ¬s.chatter_stats.length < 32
    rw [hfull]
    exact lt_irrefl 32
  rw [if_neg hlen]
  exact ⟨rfl, rfl, rfl, rfl, rfl⟩

/-- C10 witness: concrete 32-entry table; the 33rd key `(32, 0)` is
dropped from the chattering table while the buffer and the total still
record the event. -/
theorem claim_C10_witness :
    dFullEx.monitoring_active = true ∧
    dFullEx.chatter_stats.length = 32 ∧
    (∀ e ∈ dFullEx.chatter_stats, ¬(e.row = 32 ∧ e.col = 0)) ∧
    (DiagD.keyscan_diagnostics_event_callback 8 dFullEx 32 0 true 100).chatter_stats
      = dFullEx.chatter_stats ∧
    (DiagD.keyscan_diagnostics_event_callback 8 dFullEx 32 0 true 100).total_event_count
      = (dFullEx.total_event_count + 1) % 2 ^ 32 := by
  have h := claim_C10_full_table 8 dFullEx 32 0 true 100 rfl (by decide) (by decide)
  exact ⟨rfl, by decide, by decide, h.1, h.2.2.2.2⟩

/-- C9: request dispatch.  A decode failure yields exactly the error
response with its message; an unrecognized tag (the `default` arm,
`rc = -1`) yields the error response; every supported request variant
yields exactly its own (non-error) response variant — one request
variant to one handler to one response variant, never both a payload
and an error. -/
theorem claim_C9_dispatch (N maxEvents maxResp maxAlerts maxKeys : Nat)
    (device_ready : Bool) (gpio_read : Nat → Option Bool)
    (s : DiagC.CState) (decoded : Option DiagC.CRequest) :
    DiagC.isError
        (DiagC.keyscan_diagnostics_handle_request N maxEvents maxResp maxAlerts
          maxKeys device_ready gpio_read s decoded).1 =
      DiagC.isUnsupported decoded ∧
    DiagC.responseTag
        (DiagC.keyscan_diagnostics_handle_request N maxEvents maxResp maxAlerts
          maxKeys device_ready gpio_read s decoded).1 =
      DiagC.expectedTag decoded ∧
    (DiagC.keyscan_diagnostics_handle_request N maxEvents maxResp maxAlerts
        maxKeys device_ready gpio_read s none).1 =
      DiagC.CResponse.error "Failed to decode request" := by
  refine ⟨?_, ?_, rfl⟩ <;>
    cases decoded with
    | none => rfl
    | some r => cases r <;> rfl

/-- The counting scan of the position listener returns exactly the
`n`-th element of the pair table. -/
theorem position_scan_eq_getElem? (l : List (Nat × Nat)) :
    ∀ n, DiagC.position_scan n l = l[n]? := by
  induction l with
  | nil => intro n; cases n <;> rfl
  | cons p rest ih =>
    intro n
    cases n with
    | zero => simp [DiagC.position_scan]
    | succ k =>
      rw [List.getElem?_cons_succ]
      exact ih k

/-- In `[0, N)` there are exactly `N - 1` values different from a fixed
`r < N`. -/
theorem length_filter_ne_range (N r : Nat) (h : r < N) :
    ((List.range N).filter fun c => decide (r ≠ c)).length = N - 1 := by
  induction N with
  | zero => omega
  | succ n ih =>
    rw [List.range_succ, List.filter_append, List.length_append]
    by_cases hr : r = n
    · subst hr
      have h1 : (List.range r).filter (fun c => decide (r ≠ c)) = List.range r := by
        rw [List.filter_eq_self]
        intro a ha
        have : a < r := List.mem_range.mp ha
        simp only [decide_eq_true_eq]
        omega
      rw [h1]
      simp
    · have hrn : r < n := by omega
      rw [ih hrn]
      have h2 : (List.filter (fun c => decide (r ≠ c)) [n]).length = 1 := by
        simp [hr]
      rw [h2]
      omega

/-- The diagonal-excluded row-major enumeration of an `N`-line
charlieplex yields exactly `N * (N - 1)` keys. -/
theorem charlieplex_pairs_length (N : Nat) :
    (DiagC.charlieplex_pairs N).length = N * (N - 1) := by
  unfold DiagC.charlieplex_pairs
  rw [List.length_flatMap]
  have hmap :
      (List.range N).map
        (List.length ∘ fun row =>
          ((List.range N).filter fun col => decide (row ≠ col)).map
            fun col => (row, col)) =
      (List.range N).map (Function.const Nat (N - 1)) := by
    apply List.map_congr_left
    intro r hr
    have hrN : r < N := List.mem_range.mp hr
    simp only [Function.comp_apply, List.length_map, Function.const_apply]
    exact length_filter_ne_range N r hrN
  rw [hmap, List.map_const, List.length_range, List.sum_replicate, smul_eq_mul]

/-- C4: the charlieplex key table is built by iterating `drive` (row) in
`[0, N)`, then `sense` (col) in `[0, N)`, skipping the diagonal, and
assigning consecutive positions in that order; hence the key matrix
lists exactly this enumeration (when it fits the response array), the
position listener maps position `p` to the `p`-th off-diagonal pair of
that row-major enumeration, there are exactly `N * (N - 1)` keys, and
`lineCount = 4` yields `keyCount = 12`. -/
theorem claim_C4_charlieplex_table (N maxKeys : Nat) (s : DiagC.CState)
    (hcap : N * (N - 1) ≤ maxKeys) :
    ((DiagC.handle_get_key_matrix N maxKeys s).keys.map fun k => (k.row, k.col)) =
      DiagC.charlieplex_pairs N ∧
    (∀ p, DiagC.keyscan_diagnostics_position_listener N p =
      (DiagC.charlieplex_pairs N)[p]?) ∧
    (DiagC.charlieplex_pairs N).length = N * (N - 1) ∧
    (DiagC.charlieplex_pairs 4).length = 12 := by
  refine ⟨?_, ?_, charlieplex_pairs_length N, by decide⟩
  · unfold DiagC.handle_get_key_matrix
    dsimp only
    rw [List.take_of_length_le (by rw [charlieplex_pairs_length]; exact hcap)]
    rw [List.map_map]
    have : ((fun k : DiagC.KeyInfo => (k.row, k.col)) ∘ fun rc : Nat × Nat =>
        ({ row := rc.1, col := rc.2, gpio_out_index := rc.1, gpio_in_index := rc.2,
           current_state :=
             if rc.1 * N + rc.2 < 120 then (s.key_stats (rc.1 * N + rc.2)).current_state
             else false,
           press_count :=
             if rc.1 * N + rc.2 < 120 then (s.key_stats (rc.1 * N + rc.2)).press_count
             else 0,
           release_count :=
             if rc.1 * N + rc.2 < 120 then (s.key_stats (rc.1 * N + rc.2)).release_count
             else 0 } : DiagC.KeyInfo)) = fun rc : Nat × Nat => rc := by
      funext rc
      rfl
    rw [this]
    exact List.map_id _
  · intro p
    exact position_scan_eq_getElem? (DiagC.charlieplex_pairs N) p

/-- C4 witness: for 4 lines the table has 12 keys and position 0 maps to
the pair `(0, 1)`. -/
theorem claim_C4_witness :
    4 * (4 - 1) ≤ 12 ∧
    ((DiagC.handle_get_key_matrix 4 12 cStateEx).keys.map fun k => (k.row, k.col)) =
      DiagC.charlieplex_pairs 4 ∧
    DiagC.keyscan_diagnostics_position_listener 4 0 = some (0, 1) := by
  have h := claim_C4_charlieplex_table 4 12 cStateEx (by decide)
  refine ⟨by decide, h.1, ?_⟩
  rw [h.2.1 0]
  decide

/-- `bump_line` evaluated at an arbitrary line. -/
theorem bump_line_apply (f : Nat → DiagA.LineSummary) (line x : Nat) (cb mb : Bool) :
    DiagA.bump_line f line cb mb x =
      if x = line then
        ⟨(f x).involved + 1, (f x).chatter_keys + (if cb then 1 else 0),
         (f x).missing + (if mb then 1 else 0)⟩
      else f x := by
  unfold DiagA.bump_line
  rw [Function.update_apply]
  split
  · rename_i h; subst h; rfl
  · rfl

/-- One key's net contribution to line `x` of the summary array: with a
valid pair whose drive and sense lines differ, the key contributes
exactly 1 to `involved` when its pair includes `x` (and to the chatter
and missing counts under the corresponding per-key conditions). -/
theorem summary_step_apply (s : DiagA.AState) (i x : Nat) (acc : Nat → DiagA.LineSummary)
    (hd : (s.keyscan_line_map i).valid = true →
      (s.keyscan_line_map i).drive ≠ (s.keyscan_line_map i).sense) :
    (DiagA.summary_step s acc i x).involved = (acc x).involved +
      (if (s.keyscan_line_map i).valid = true ∧
          ((s.keyscan_line_map i).drive = x ∨ (s.keyscan_line_map i).sense = x)
       then 1 else 0) ∧
    (DiagA.summary_step s acc i x).chatter_keys = (acc x).chatter_keys +
      (if (s.keyscan_line_map i).valid = true ∧
          ((s.keyscan_line_map i).drive = x ∨ (s.keyscan_line_map i).sense = x) ∧
          0 < (s.keyscan_stats i).chatter_count
       then 1 else 0) ∧
    (DiagA.summary_step s acc i x).missing = (acc x).missing +
      (if (s.keyscan_line_map i).valid = true ∧
          ((s.keyscan_line_map i).drive = x ∨ (s.keyscan_line_map i).sense = x) ∧
          (s.keyscan_stats i).seen = false
       then 1 else 0) := by
  unfold DiagA.summary_step
  cases hv : (s.keyscan_line_map i).valid with
  | false => simp [hv]
  | true =>
    have hdv := hd hv
    simp only [if_true, hv, bump_line_apply]
    by_cases hxs : x = (s.keyscan_line_map i).sense <;>
      by_cases hxd : x = (s.keyscan_line_map i).drive <;>
      [skip; skip; skip; skip] <;>
      first
      | (exfalso; exact hdv (hxd ▸ hxs ▸ rfl))
      | (split_ifs <;> simp_all <;> omega)

/-- The whole key loop accumulates, at each line, exactly the counts of
involved, chattering and missing keys among the iterated positions. -/
theorem foldl_summary_step (s : DiagA.AState) (x : Nat) :
    ∀ (L : List Nat) (f : Nat → DiagA.LineSummary),
      (∀ i ∈ L, (s.keyscan_line_map i).valid = true →
        (s.keyscan_line_map i).drive ≠ (s.keyscan_line_map i).sense) →
      ((L.foldl (DiagA.summary_step s) f) x).involved
          = (f x).involved + L.countP (fun i =>
              decide ((s.keyscan_line_map i).valid = true ∧
                ((s.keyscan_line_map i).drive = x ∨ (s.keyscan_line_map i).sense = x))) ∧
      ((L.foldl (DiagA.summary_step s) f) x).chatter_keys
          = (f x).chatter_keys + L.countP (fun i =>
              decide ((s.keyscan_line_map i).valid = true ∧
                ((s.keyscan_line_map i).drive = x ∨ (s.keyscan_line_map i).sense = x) ∧
                0 < (s.keyscan_stats i).chatter_count)) ∧
      ((L.foldl (DiagA.summary_step s) f) x).missing
          = (f x).missing + L.countP (fun i =>
              decide ((s.keyscan_line_map i).valid = true ∧
                ((s.keyscan_line_map i).drive = x ∨ (s.keyscan_line_map i).sense = x) ∧
                (s.keyscan_stats i).seen = false)) := by
  intro L
  induction L with
  | nil => intro f _; simp
  | cons i L ih =>
    intro f hds
    obtain ⟨h1, h2, h3⟩ :=
      ih (DiagA.summary_step s f i) fun j hj => hds j (List.mem_cons_of_mem _ hj)
    obtain ⟨g1, g2, g3⟩ := summary_step_apply s i x f (hds i (List.mem_cons_self i L))
    rw [List.foldl_cons]
    refine ⟨?_, ?_, ?_⟩
    · rw [h1, g1, List.countP_cons]
      simp only [decide_eq_true_eq]
      split_ifs <;> omega
    · rw [h2, g2, List.countP_cons]
      simp only [decide_eq_true_eq]
      split_ifs <;> omega
    · rw [h3, g3, List.countP_cons]
      simp only [decide_eq_true_eq]
      split_ifs <;> omega

/-- The snapshot's per-line summaries equal the specification-level
counts derived from the per-key statistics and the line map. -/
theorem snapshot_line_summaries_eq (s : DiagA.AState) (maxKeys : Nat)
    (hds : ∀ i < min s.keyCount maxKeys, (s.keyscan_line_map i).valid = true →
      (s.keyscan_line_map i).drive ≠ (s.keyscan_line_map i).sense) (x : Nat) :
    (DiagA.snapshot_line_summaries maxKeys s x).involved
        = DiagA.involvedCount s (min s.keyCount maxKeys) x ∧
    (DiagA.snapshot_line_summaries maxKeys s x).chatter_keys
        = DiagA.chatterKeyCount s (min s.keyCount maxKeys) x ∧
    (DiagA.snapshot_line_summaries maxKeys s x).missing
        = DiagA.missingKeyCount s (min s.keyCount maxKeys) x := by
  have h := foldl_summary_step s x (List.range (min s.keyCount maxKeys))
    (fun _ => ⟨0, 0, 0⟩) fun i hi => hds i (List.mem_range.mp hi)
  unfold DiagA.snapshot_line_summaries DiagA.involvedCount DiagA.chatterKeyCount
    DiagA.missingKeyCount
  exact ⟨by simpa using h.1, by simpa using h.2.1, by simpa using h.2.2⟩

/-- C3: every line in the snapshot reports
`suspectedFault = true` iff
`involvedKeyCount > 0 ∧ (activityCount = 0 ∨ chatterKeyCount > 0 ∨ missingKeyCount > 0)`,
where the three counts are the snapshot-time derivations from the
per-key statistics and the line map (functions of the state only, not
incrementally maintained fields). -/
theorem claim_C3_line_fault (s : DiagA.AState) (maxKeys maxLines : Nat)
    (hds : ∀ i < min s.keyCount maxKeys, (s.keyscan_line_map i).valid = true →
      (s.keyscan_line_map i).drive ≠ (s.keyscan_line_map i).sense)
    (x : Nat) (hx : x < min s.lineCount maxLines) :
    ∃ st : DiagA.LineStatus,
      (DiagA.snapshot_lines maxKeys maxLines s)[x]? = some st ∧
      st.index = x ∧
      st.activity = s.keyscan_diag_line_activity x ∧
      st.involved_keys = DiagA.involvedCount s (min s.keyCount maxKeys) x ∧
      st.chatter_keys = DiagA.chatterKeyCount s (min s.keyCount maxKeys) x ∧
      (st.suspected_fault = true ↔
        0 < DiagA.involvedCount s (min s.keyCount maxKeys) x ∧
          (s.keyscan_diag_line_activity x = 0 ∨
           0 < DiagA.chatterKeyCount s (min s.keyCount maxKeys) x ∨
           0 < DiagA.missingKeyCount s (min s.keyCount maxKeys) x)) := by
  obtain ⟨hI, hC, hM⟩ := snapshot_line_summaries_eq s maxKeys hds x
  refine ⟨{ index := x, activity := s.keyscan_diag_line_activity x,
            involved_keys := (DiagA.snapshot_line_summaries maxKeys s x).involved,
            chatter_keys := (DiagA.snapshot_line_summaries maxKeys s x).chatter_keys,
            suspected_fault :=
              decide (0 < (DiagA.snapshot_line_summaries maxKeys s x).involved ∧
                (s.keyscan_diag_line_activity x = 0 ∨
                 0 < (DiagA.snapshot_line_summaries maxKeys s x).chatter_keys ∨
                 0 < (DiagA.snapshot_line_summaries maxKeys s x).missing)) },
          ?_, rfl, rfl, hI, hC, ?_⟩
  · unfold DiagA.snapshot_lines
    dsimp only
    rw [List.getElem?_map, List.getElem?_range hx]
    rfl
  · rw [decide_eq_true_eq, hI, hC, hM]

/-- C3 witness: a concrete one-key two-line state. -/
theorem claim_C3_witness :
    (∀ i < min aStateEx.keyCount 4, (aStateEx.keyscan_line_map i).valid = true →
      (aStateEx.keyscan_line_map i).drive ≠ (aStateEx.keyscan_line_map i).sense) ∧
    0 < min aStateEx.lineCount 4 ∧
    (∃ st : DiagA.LineStatus,
      (DiagA.snapshot_lines 4 4 aStateEx)[0]? = some st ∧
      st.index = 0 ∧
      st.activity = aStateEx.keyscan_diag_line_activity 0 ∧
      st.involved_keys = DiagA.involvedCount aStateEx (min aStateEx.keyCount 4) 0 ∧
      st.chatter_keys = DiagA.chatterKeyCount aStateEx (min aStateEx.keyCount 4) 0 ∧
      (st.suspected_fault = true ↔
        0 < DiagA.involvedCount aStateEx (min aStateEx.keyCount 4) 0 ∧
          (aStateEx.keyscan_diag_line_activity 0 = 0 ∨
           0 < DiagA.chatterKeyCount aStateEx (min aStateEx.keyCount 4) 0 ∨
           0 < DiagA.missingKeyCount aStateEx (min aStateEx.keyCount 4) 0))) :=
  ⟨by decide, by decide, claim_C3_line_fault aStateEx 4 4 (by decide) 0 (by decide)⟩

/-- Projection of `record_key_event` (monitoring active) onto the
circular-buffer fields: not-full appends at `(head + count) % M` and
bumps the count; full overwrites at `head`, advances it, and raises the
overflow flag.  The key-statistics/alert branches touch no buffer
field. -/
theorem record_key_event_buffer (M : Nat) (s : DiagC.CState) (row col : Nat)
    (p : Bool) (now : Int) (ha : s.monitoring_active = true) :
    (DiagC.record_key_event M s row col p now).monitoring_active = true ∧
    (DiagC.record_key_event M s row col p now).event_count =
      (if s.event_count < M then s.event_count + 1 else s.event_count) ∧
    (DiagC.record_key_event M s row col p now).event_head =
      (if s.event_count < M then s.event_head else (s.event_head + 1) % M) ∧
    (DiagC.record_key_event M s row col p now).buffer_overflow =
      (if s.event_count < M then s.buffer_overflow else true) ∧
    (DiagC.record_key_event M s row col p now).events =
      Function.update s.events
        (if s.event_count < M then (s.event_head + s.event_count) % M
         else s.event_head)
        ⟨row, col, p, now⟩ := by
  unfold DiagC.record_key_event
  rw [ha]
  by_cases hcnt : s.event_count < M <;>
    simp only [hcnt, if_true, if_false, Bool.not_true, Bool.false_eq_true] <;>
    refine ⟨?_, ?_, ?_, ?_, ?_⟩ <;>
    (dsimp only; split <;> [skip; rfl] <;> split <;> rfl)

/-- Shifting a reduced index by `0 < k < M` moves it to a different
slot of an `M`-slot circular buffer. -/
theorem mod_shift_ne (M h k : Nat) (hh : h < M) (hk1 : 0 < k) (hk2 : k < M) :
    (h + k) % M ≠ h := by
  intro heq
  rcases lt_or_ge (h + k) M with hlt | hge
  · rw [Nat.mod_eq_of_lt hlt] at heq
    omega
  · have hsub : (h + k) % M = (h + k - M) % M := Nat.mod_eq_sub_mod hge
    rw [hsub, Nat.mod_eq_of_lt (by omega)] at heq
    omega

/-- Circular-buffer invariant: after recording any event list from a
reset, active state, the buffer count saturates at the capacity, the
head points at the oldest retained slot, the overflow flag is set
exactly when the capacity was exceeded, and reading `i` slots past the
head yields the `i`-th oldest of the retained (most recent) events. -/
theorem record_events_invariant (M : Nat) (hM : 0 < M) (s0 : DiagC.CState)
    (h0a : s0.monitoring_active = true) (h0h : s0.event_head = 0)
    (h0c : s0.event_count = 0) (h0o : s0.buffer_overflow = false)
    (es : List DiagC.BufferedEvent) :
    (DiagC.record_events M s0 es).monitoring_active = true ∧
    (DiagC.record_events M s0 es).event_count = min es.length M ∧
    (DiagC.record_events M s0 es).event_head =
      (if es.length ≤ M then 0 else (es.length - M) % M) ∧
    (DiagC.record_events M s0 es).buffer_overflow = decide (M < es.length) ∧
    ∀ i < min es.length M,
      (DiagC.record_events M s0 es).events
          (((DiagC.record_events M s0 es).event_head + i) % M) =
        es.getD (es.length - min es.length M + i) default := by
  induction es using List.reverseRecOn with
  | nil =>
    refine ⟨h0a, by simp [DiagC.record_events, h0c], by simp [DiagC.record_events, h0h],
            by simp [DiagC.record_events, h0o], ?_⟩
    intro i hi
    simp at hi
  | append_singleton es e ih =>
    obtain ⟨ta, tc, th, tov, tr⟩ := ih
    have hrec : DiagC.record_events M s0 (es ++ [e]) =
        DiagC.record_key_event M (DiagC.record_events M s0 es)
          e.row e.col e.pressed e.timestamp_ms := by
      unfold DiagC.record_events
      rw [List.foldl_append]
      rfl
    obtain ⟨pa, pc, ph, po, pe⟩ :=
      record_key_event_buffer M (DiagC.record_events M s0 es)
        e.row e.col e.pressed e.timestamp_ms ta
    have hlen : (es ++ [e]).length = es.length + 1 := by simp
    by_cases hn : es.length < M
    · -- buffer not yet full: append at slot `es.length`
      have hcnt : (DiagC.record_events M s0 es).event_count <
          M := by rw [tc]; omega
      have hmin : min es.length M = es.length := by omega
      have hth0 : (DiagC.record_events M s0 es).event_head = 0 := by
        rw [th, if_pos (by omega)]
      refine ⟨by rw [hrec]; exact pa, ?_, ?_, ?_, ?_⟩
      · rw [hrec, pc, if_pos hcnt, tc, hlen]
        omega
      · rw [hrec, ph, if_pos hcnt, hth0, hlen, if_pos (by omega)]
      · rw [hrec, po, if_pos hcnt, tov, hlen]
        have h1 : ¬ M < es.length := by omega
        have h2 : ¬ M < es.length + 1 := by omega
        simp [h1, h2]
      · intro i hi
        rw [hlen] at hi
        rw [hrec, pe, if_pos hcnt, ph, if_pos hcnt, hth0, tc, hmin, hlen]
        have hidx : (0 + es.length) % M = es.length := by
          rw [Nat.zero_add, Nat.mod_eq_of_lt hn]
        rw [hidx]
        have hstart : es.length + 1 - min (es.length + 1) M + i = i := by omega
        rw [hstart]
        have hiM : (0 + i) % M = i := by
          rw [Nat.zero_add]
          exact Nat.mod_eq_of_lt (by omega)
        rw [hiM]
        by_cases hie : i = es.length
        · subst hie
          rw [Function.update_same]
          rw [List.getD_append_right es [e] default es.length (le_refl _)]
          simp
        · rw [Function.update_noteq hie]
          have hilt : i < es.length := by omega
          rw [List.getD_append es [e] default i hilt]
          have htr := tr i (by omega)
          rw [hth0, hmin, Nat.sub_self] at htr
          rw [hiM, Nat.zero_add] at htr
          exact htr
    · -- buffer full: overwrite the oldest at the head
      have hMn : M ≤ es.length := by omega
      have hcnt : ¬ (DiagC.record_events M s0 es).event_count < M := by
        rw [tc]; omega
      have hmin : min es.length M = M := by omega
      have hth' : (DiagC.record_events M s0 es).event_head = (es.length - M) % M := by
        rw [th]
        by_cases hle : es.length ≤ M
        · have : es.length = M := by omega
          simp [this]
        · rw [if_neg hle]
      have hhlt : (es.length - M) % M < M := Nat.mod_lt _ hM
      refine ⟨by rw [hrec]; exact pa, ?_, ?_, ?_, ?_⟩
      · rw [hrec, pc, if_neg hcnt, tc, hlen]
        omega
      · rw [hrec, ph, if_neg hcnt, hth', hlen, if_neg (by omega)]
        rw [Nat.mod_add_mod]
        congr 1
        omega
      · rw [hrec, po, if_neg hcnt, hlen]
        have : M < es.length + 1 := by omega
        simp [this]
      · intro i hi
        rw [hlen] at hi
        have hiM : i < M := by omega
        rw [hrec, pe, if_neg hcnt, ph, if_neg hcnt, hth', hlen]
        have hminS : min (es.length + 1) M = M := by omega
        rw [hminS]
        have hidx : (((es.length - M) % M + 1) % M + i) % M
            = ((es.length - M) % M + (1 + i)) % M := by
          rw [Nat.mod_add_mod, Nat.add_assoc]
        rw [hidx]
        by_cases hie : i = M - 1
        · subst hie
          have h1M : 1 + (M - 1) = M := by omega
          rw [h1M, Nat.add_mod_right, Nat.mod_eq_of_lt hhlt, Function.update_same]
          have hn' : es.length + 1 - M + (M - 1) = es.length := by omega
          rw [hn']
          rw [List.getD_append_right es [e] default es.length (le_refl _)]
          simp
        · have hne : ((es.length - M) % M + (1 + i)) % M ≠ (es.length - M) % M :=
            mod_shift_ne M ((es.length - M) % M) (1 + i) hhlt (by omega) (by omega)
          rw [Function.update_noteq hne]
          have htr := tr (i + 1) (by omega)
          rw [hth', hmin] at htr
          have he1 : (es.length - M) % M + (1 + i) = (es.length - M) % M + (i + 1) := by
            omega
          rw [he1]
          rw [htr]
          have he2 : es.length + 1 - M + i = es.length - M + (i + 1) := by omega
          rw [he2]
          exact (List.getD_append es [e] default (es.length - M + (i + 1))
            (by omega)).symm

/-- Reading a list by successive indices starting at `k` yields its
`k`-drop. -/
theorem map_getD_range_drop {α : Type} (l : List α) (d : α) (k : Nat)
    (hk : k ≤ l.length) :
    (List.range (l.length - k)).map (fun i => l.getD (k + i) d) = l.drop k := by
  apply List.ext_getElem
  · simp
  · intro n h1 h2
    have hb : k + n < l.length := by
      simp only [List.length_map, List.length_range] at h1
      omega
    simp only [List.getElem_map, List.getElem_range, List.getElem_drop]
    exact List.getD_eq_getElem l d hb

/-- C5: recording `C + 1` events into the capacity-`C` buffer (from a
reset, active state) keeps exactly the `C` most recent events, with the
oldest overwritten: `GetEvents` with room for `C` returns them in
chronological order (the original sequence minus its first event) and
reports `overflow = true`; the flag stays set when the buffer is not
drained and is cleared exactly by an explicit drain. -/
theorem claim_C5_buffer_capacity (C : Nat) (hC : 0 < C)
    (es : List DiagC.BufferedEvent) (hlen : es.length = C + 1)
    (s0 : DiagC.CState) (h0a : s0.monitoring_active = true)
    (h0h : s0.event_head = 0) (h0c : s0.event_count = 0)
    (h0o : s0.buffer_overflow = false) :
    (DiagC.handle_get_events C C (DiagC.record_events C s0 es) false).1.events
      = es.drop 1 ∧
    (DiagC.handle_get_events C C (DiagC.record_events C s0 es) false).1.buffer_overflow
      = true ∧
    (DiagC.handle_get_events C C (DiagC.record_events C s0 es) false).2.buffer_overflow
      = true ∧
    (DiagC.handle_get_events C C (DiagC.record_events C s0 es) true).2.buffer_overflow
      = false ∧
    (DiagC.handle_get_events C C (DiagC.record_events C s0 es) true).2.event_count
      = 0 := by
  obtain ⟨ta, tc, th, tov, tr⟩ := record_events_invariant C hC s0 h0a h0h h0c h0o es
  rw [hlen] at tc th tov tr
  have hminC : min (C + 1) C = C := by omega
  rw [hminC] at tc tr
  have hstart : C + 1 - C = 1 := by omega
  rw [hstart] at tr
  have hov : (DiagC.record_events C s0 es).buffer_overflow = true := by
    rw [tov]
    simp
  refine ⟨?_, ?_, ?_, ?_, ?_⟩
  · unfold DiagC.handle_get_events
    dsimp only
    rw [tc, Nat.min_self]
    have hcongr : ∀ i ∈ List.range C,
        (DiagC.record_events C s0 es).events
            (((DiagC.record_events C s0 es).event_head + i) % C) =
          es.getD (1 + i) default := fun i hi => tr i (List.mem_range.mp hi)
    rw [List.map_congr_left hcongr]
    have hdrop := map_getD_range_drop es default 1 (by omega)
    have hC1 : C + 1 - 1 = C := by omega
    rw [hlen, hC1] at hdrop
    exact hdrop
  · unfold DiagC.handle_get_events
    dsimp only
    exact hov
  · unfold DiagC.handle_get_events
    dsimp only
    rw [if_neg (by simp)]
    exact hov
  · rfl
  · rfl

/-- C5 witness: capacity 2, three concrete events; the two most recent
come back in order with the overflow flag set. -/
theorem claim_C5_witness :
    0 < 2 ∧
    ([⟨0, 0, true, 1⟩, ⟨0, 1, true, 2⟩, ⟨1, 0, false, 3⟩] :
      List DiagC.BufferedEvent).length = 2 + 1 ∧
    (DiagC.handle_get_events 2 2
        (DiagC.record_events 2 { cStateEx with monitoring_active := true }
          [⟨0, 0, true, 1⟩, ⟨0, 1, true, 2⟩, ⟨1, 0, false, 3⟩]) false).1.events
      = ([⟨0, 0, true, 1⟩, ⟨0, 1, true, 2⟩, ⟨1, 0, false, 3⟩] :
          List DiagC.BufferedEvent).drop 1 ∧
    (DiagC.handle_get_events 2 2
        (DiagC.record_events 2 { cStateEx with monitoring_active := true }
          [⟨0, 0, true, 1⟩, ⟨0, 1, true, 2⟩, ⟨1, 0, false, 3⟩]) false).1.buffer_overflow
      = true := by
  have h := claim_C5_buffer_capacity 2 (by decide)
    [⟨0, 0, true, 1⟩, ⟨0, 1, true, 2⟩, ⟨1, 0, false, 3⟩] rfl
    { cStateEx with monitoring_active := true } rfl rfl rfl rfl
  exact ⟨by decide, rfl, h.1, h.2.1⟩
